import Mathlib

/-!
Verification of the ProtoBuddy compatibility engine
(`src/backend/src/services/compatibility.ts` together with the cache
wrapper of `src/backend/src/database/connection.ts`).

The TypeScript service is embedded shallowly:

* JS numbers that carry voltages, currents and dimensions are embedded
  as rationals; the counters produced by `Array.length` are naturals.
* JS template interpolation of a number into a message string is
  embedded by `ratStr`; no claim depends on the exact rendering.
* `Array.prototype.sort` is stable (ECMAScript 2019), so the call
  `issues.sort((a, b) => severityOrder[a.severity] - severityOrder[b.severity])`
  is embedded as a stable insertion sort by severity rank.
* `[...new Set(xs)]` keeps the first occurrence of each element and is
  embedded as `dedupFirst`.
* The async orchestration is pure apart from the cache and the catalog
  repository; those collaborators enter the embedding as explicit
  arguments (`Except` values describing what the backend call did).
-/

namespace ProtoBuddy

/-- Severity of a compatibility issue: the string union
`error | warning | info` of `src/backend/src/types/index.ts`. -/
inductive Severity where
  | error
  | warning
  | info
deriving DecidableEq, Repr

/-- The `type` field of a `CompatibilityIssue`.  Besides the union
declared in `types/index.ts` the service also produces the values
`physical` (in `checkPhysicalConstraints`) and `error`
(in `createErrorCompatibility`, cast with `as any`), so both appear here. -/
inductive IssueKind where
  | voltage
  | current
  | protocol
  | pins
  | library
  | physical
  | error
deriving DecidableEq, Repr

/-- `CompatibilityIssue` of `types/index.ts`. -/
structure CompatibilityIssue where
  type : IssueKind
  severity : Severity
  message : String
  solution : Option String
deriving DecidableEq, Repr

/-- `CompatibilityCheck` of `types/index.ts`.  The JS `score` is an
arbitrary number; the service only ever stores integers in it, and the
embedding uses `Int` (claim C2 proves the `[0, 100]` bound). -/
structure CompatibilityCheck where
  compatible : Bool
  issues : List CompatibilityIssue
  suggestions : List String
  score : Int
deriving DecidableEq, Repr

/-- Protocol tags of `CommunicationProtocol.type` in `types/index.ts`. -/
inductive ProtocolType where
  | I2C
  | SPI
  | UART
  | PWM
  | GPIO
  | ADC
  | OneWire
  | CAN
deriving DecidableEq, Repr

/-- `CommunicationProtocol` of `types/index.ts`.  Of the `details`
record only `address` is read by the compatibility service
(`checkSpecificProtocol`), so the other optional detail fields are
omitted from the embedding. -/
structure CommunicationProtocol where
  type : ProtocolType
  address : Option String
deriving DecidableEq, Repr

/-- `PinConfiguration.type` of `types/index.ts`. -/
inductive PinType where
  | power
  | ground
  | digital
  | analog
  | communication
deriving DecidableEq, Repr

/-- `PinConfiguration` of `types/index.ts`; the service reads only the
`type` field (and the length of the pin list), so the remaining fields
are omitted. -/
structure PinConfiguration where
  type : PinType
deriving DecidableEq, Repr

/-- `BoardPin` of `types/index.ts`; the service reads `functions` and
tests `analogPin !== undefined`, so only those fields are embedded. -/
structure BoardPin where
  functions : List String
  analogPin : Option Nat
deriving DecidableEq, Repr

/-- Physical dimensions of a component (`specifications.dimensions`). -/
structure Dimensions where
  length : ℚ
  width : ℚ
  height : ℚ
deriving DecidableEq, Repr

/-- `Board` of `types/index.ts`, restricted to the fields the
compatibility service reads:
`type`, `specifications.voltage.io`,
`specifications.current.output.perPin`,
`specifications.current.output.total`, `supportedProtocols`, `pins`. -/
structure Board where
  type : String
  ioVoltage : ℚ
  currentPerPin : ℚ
  currentTotal : ℚ
  supportedProtocols : List CommunicationProtocol
  pins : List BoardPin
deriving DecidableEq, Repr

/-- `Component` of `types/index.ts`, restricted to the fields the
compatibility service reads: `specifications.voltage.operating.min/max`,
`specifications.current.operating.max`, `specifications.communication`,
`specifications.pins`, `specifications.dimensions`,
`compatibility.requiredLibraries`. -/
structure Component where
  voltageMin : ℚ
  voltageMax : ℚ
  currentOperatingMax : ℚ
  communication : List CommunicationProtocol
  pins : List PinConfiguration
  dimensions : Option Dimensions
  requiredLibraries : List String
deriving DecidableEq, Repr

/-- Rendering of a JS number into a message string (template
interpolation).  The exact digits never matter to any claim; an exact
reading of integers and a fraction rendering otherwise. -/
def ratStr (q : ℚ) : String :=
  if q.den = 1 then toString q.num else toString q.num ++ "/" ++ toString q.den

/-- `needle` occurs as a contiguous subsequence of `hay`
(JS `String.prototype.includes`, on the character lists). -/
def charsIncludes (hay needle : List Char) : Bool :=
  match hay with
  | [] => needle.isEmpty
  | _ :: t => needle.isPrefixOf hay || charsIncludes t needle

/-- JS `s.toLowerCase()`, embedded as per-character lowering of the
character list (identical to JS on the ASCII strings the service
compares). -/
def lowerChars (s : String) : List Char :=
  s.data.map Char.toLower

/-- JS truthiness of an optional string (`undefined` and the empty
string are falsy). -/
def strTruthy : Option String → Bool
  | some s => s ≠ ""
  | none => false

/-- `issues.filter(issue => issue.severity === 'error').length`,
the error count the service computes in every rule and in the
aggregation step. -/
def errorCount (issues : List CompatibilityIssue) : Nat :=
  (issues.filter fun issue => issue.severity == Severity.error).length

/-- `severityOrder = { error: 0, warning: 1, info: 2 }` of
`analyzeCompatibility`. -/
def severityRank : Severity → Nat
  | Severity.error => 0
  | Severity.warning => 1
  | Severity.info => 2

/-- Comparator order on issues induced by
`severityOrder[a.severity] - severityOrder[b.severity]`. -/
def severityLe (a b : CompatibilityIssue) : Prop :=
  severityRank a.severity ≤ severityRank b.severity

instance : DecidableRel severityLe := fun a b =>
  inferInstanceAs (Decidable (severityRank a.severity ≤ severityRank b.severity))

instance : IsTotal CompatibilityIssue severityLe :=
  ⟨fun a b => Nat.le_total (severityRank a.severity) (severityRank b.severity)⟩

instance : IsTrans CompatibilityIssue severityLe :=
  ⟨fun _ _ _ hab hbc => Nat.le_trans hab hbc⟩

/-- The sort of `analyzeCompatibility`:
`issues.sort((a, b) => severityOrder[a.severity] - severityOrder[b.severity])`.
ECMAScript `Array.prototype.sort` is stable, and a stable sort by this
comparator is the stable insertion sort along `severityLe`. -/
def sortIssues (issues : List CompatibilityIssue) : List CompatibilityIssue :=
  List.insertionSort severityLe issues

/-- `[...new Set(suggestions)]`: deduplication keeping the first
occurrence of each string, in order. -/
def dedupFirst (suggestions : List String) : List String :=
  suggestions.foldl (fun acc s => if acc.contains s then acc else acc ++ [s]) []

/-- Shape of the record each rule evaluator of
`compatibility.ts` returns. -/
structure RuleOutcome where
  compatible : Bool
  issues : List CompatibilityIssue
  suggestions : List String
  penalty : Int
deriving DecidableEq, Repr

/-- `checkVoltageCompatibility` of `compatibility.ts` (lines 155-196). -/
def checkVoltageCompatibility (board : Board) (component : Component) : RuleOutcome :=
  let boardVoltage := board.ioVoltage
  let compMin := component.voltageMin
  let compMax := component.voltageMax
  let mismatch := compMin > boardVoltage ∨ compMax < boardVoltage
  let isError := |boardVoltage - compMin| > 1.5
  let issues : List CompatibilityIssue :=
    if mismatch then
      [{ type := IssueKind.voltage
         severity := if isError then Severity.error else Severity.warning
         message := "Voltage mismatch: Board operates at " ++ ratStr boardVoltage ++
           "V, component requires " ++ ratStr compMin ++ "-" ++ ratStr compMax ++ "V"
         solution := some (if boardVoltage > compMax then
             "Consider using a level shifter or voltage divider"
           else
             "Component may work but check datasheet for tolerance") }]
    else []
  let suggestions : List String :=
    if mismatch then
      if boardVoltage = 5 ∧ compMax ≤ 3.6 then
        ["Use a 3.3V level shifter for safe operation"]
      else if boardVoltage = 3.3 ∧ compMin ≥ 4.5 then
        ["This component requires 5V and may not work reliably at 3.3V"]
      else []
    else []
  let penalty : Int := if mismatch then (if isError then 50 else 20) else 0
  { compatible := errorCount issues == 0
    issues := issues
    suggestions := suggestions
    penalty := penalty }

/-- `checkCurrentRequirements` of `compatibility.ts` (lines 198-249). -/
def checkCurrentRequirements (board : Board) (component : Component) : RuleOutcome :=
  let boardMaxCurrent := board.currentPerPin
  let boardTotalCurrent := board.currentTotal
  let compCurrent := component.currentOperatingMax
  let pinIssues : List CompatibilityIssue :=
    if compCurrent > boardMaxCurrent then
      [{ type := IssueKind.current
         severity := Severity.error
         message := "Current requirement too high: Component needs " ++ ratStr compCurrent ++
           "mA, board can supply " ++ ratStr boardMaxCurrent ++ "mA per pin"
         solution := some "Use an external driver or power supply" }]
    else if compCurrent > boardMaxCurrent * 0.8 then
      [{ type := IssueKind.current
         severity := Severity.warning
         message := "High current usage: Component uses " ++ ratStr compCurrent ++
           "mA, close to board limit of " ++ ratStr boardMaxCurrent ++ "mA"
         solution := some "Monitor temperature and consider external power" }]
    else []
  let budgetIssues : List CompatibilityIssue :=
    if compCurrent > boardTotalCurrent * 0.5 then
      [{ type := IssueKind.current
         severity := Severity.warning
         message := "Component uses significant portion of total current budget (" ++
           ratStr compCurrent ++ "mA of " ++ ratStr boardTotalCurrent ++ "mA)"
         solution := some "Consider power management and other connected components" }]
    else []
  let issues := pinIssues ++ budgetIssues
  let suggestions : List String :=
    if compCurrent > boardMaxCurrent then
      ["Consider using a MOSFET or relay driver for high-current components"]
    else []
  let penalty : Int :=
    (if compCurrent > boardMaxCurrent then 40
     else if compCurrent > boardMaxCurrent * 0.8 then 10
     else 0) +
    (if compCurrent > boardTotalCurrent * 0.5 then 5 else 0)
  { compatible := errorCount issues == 0
    issues := issues
    suggestions := suggestions
    penalty := penalty }

/-- The string value of a `ProtocolType` tag: in the source the tag is
the string itself (`'I2C' | 'SPI' | ...`). -/
def protocolTypeStr : ProtocolType → String
  | ProtocolType.I2C => "I2C"
  | ProtocolType.SPI => "SPI"
  | ProtocolType.UART => "UART"
  | ProtocolType.PWM => "PWM"
  | ProtocolType.GPIO => "GPIO"
  | ProtocolType.ADC => "ADC"
  | ProtocolType.OneWire => "OneWire"
  | ProtocolType.CAN => "CAN"

/-- `getProtocolSolution` of `compatibility.ts` (lines 482-492). -/
def getProtocolSolution (protocol : ProtocolType) : String :=
  match protocol with
  | ProtocolType.I2C => "Use software I2C or an I2C-capable board"
  | ProtocolType.SPI => "Use bit-banged SPI or choose a board with SPI support"
  | ProtocolType.UART => "Use SoftwareSerial library or a board with multiple UARTs"
  | ProtocolType.OneWire => "OneWire can be implemented on any digital pin"
  | ProtocolType.CAN => "Use a CAN transceiver shield or CAN-capable board"
  | _ => "Check if software implementation is available"

/-- `checkSpecificProtocol` of `compatibility.ts` (lines 302-343):
issues, suggestions and penalty contributed by a protocol the board
does support. -/
def checkSpecificProtocol (board : Board) (protocol : CommunicationProtocol) :
    List CompatibilityIssue × List String × Int :=
  match protocol.type with
  | ProtocolType.I2C =>
    if strTruthy protocol.address then
      ([], ["I2C address: " ++ protocol.address.getD "" ++
            " - ensure no conflicts with other components"], 0)
    else ([], [], 0)
  | ProtocolType.SPI =>
    ([], ["SPI component will need a dedicated CS (Chip Select) pin"], 0)
  | ProtocolType.UART =>
    let boardUARTs := (board.pins.filter fun pin =>
      pin.functions.any fun func =>
        charsIncludes (lowerChars func) "uart".data ||
        charsIncludes (lowerChars func) "serial".data).length
    if boardUARTs = 0 then
      ([{ type := IssueKind.protocol
          severity := Severity.warning
          message := "No dedicated UART pins found - may need to use software serial"
          solution := some "Use SoftwareSerial library for additional UART functionality" }],
       [], 10)
    else ([], [], 0)
  | _ => ([], [], 0)

/-- `checkProtocolCompatibility` of `compatibility.ts` (lines 251-300).
The `for` loop over the component protocols is the fold below. -/
def checkProtocolCompatibility (board : Board) (component : Component) : RuleOutcome :=
  let componentProtocols := component.communication
  let boardProtocols := board.supportedProtocols.map fun p => p.type
  if componentProtocols.length = 0 then
    { compatible := true, issues := [], suggestions := [], penalty := 0 }
  else
    let step := fun (acc : List CompatibilityIssue × List String × Int)
        (protocol : CommunicationProtocol) =>
      if !boardProtocols.contains protocol.type then
        if protocol.type = ProtocolType.GPIO then
          acc
        else
          (acc.1 ++
            [{ type := IssueKind.protocol
               severity := Severity.error
               message := "Protocol not supported: Component requires " ++
                 protocolTypeStr protocol.type ++ ", board doesn\x27t support it"
               solution := some (getProtocolSolution protocol.type) }],
           acc.2.1, acc.2.2 + 30)
      else
        let sub := checkSpecificProtocol board protocol
        (acc.1 ++ sub.1, acc.2.1 ++ sub.2.1, acc.2.2 + sub.2.2)
    let folded := componentProtocols.foldl step ([], [], 0)
    { compatible := errorCount folded.1 == 0
      issues := folded.1
      suggestions := folded.2.1
      penalty := folded.2.2 }

/-- `checkPinAvailability` of `compatibility.ts` (lines 345-398). -/
def checkPinAvailability (board : Board) (component : Component) : RuleOutcome :=
  let requiredPins := component.pins.length
  let availablePins := (board.pins.filter fun pin =>
    pin.functions.contains "GPIO" || pin.functions.contains "digital").length
  let countIssues : List CompatibilityIssue :=
    if requiredPins > availablePins then
      [{ type := IssueKind.pins
         severity := Severity.error
         message := "Insufficient pins: Component needs " ++ toString requiredPins ++
           " pins, board has " ++ toString availablePins ++ " available"
         solution := some "Use a pin expander or choose a board with more pins" }]
    else if (requiredPins : ℚ) > (availablePins : ℚ) * 0.8 then
      [{ type := IssueKind.pins
         severity := Severity.warning
         message := "High pin usage: Component uses " ++ toString requiredPins ++
           " of " ++ toString availablePins ++ " available pins"
         solution := some "Consider pin usage for future expansion" }]
    else []
  let analogPinsNeeded := (component.pins.filter fun pin => pin.type == PinType.analog).length
  let analogPinsAvailable := (board.pins.filter fun pin => pin.analogPin.isSome).length
  let analogIssues : List CompatibilityIssue :=
    if analogPinsNeeded > analogPinsAvailable then
      [{ type := IssueKind.pins
         severity := Severity.error
         message := "Insufficient analog pins: Need " ++ toString analogPinsNeeded ++
           ", have " ++ toString analogPinsAvailable
         solution := some "Use an external ADC or choose a board with more analog pins" }]
    else []
  let issues := countIssues ++ analogIssues
  let penalty : Int :=
    (if requiredPins > availablePins then 30
     else if (requiredPins : ℚ) > (availablePins : ℚ) * 0.8 then 5
     else 0) +
    (if analogPinsNeeded > analogPinsAvailable then 25 else 0)
  { compatible := errorCount issues == 0
    issues := issues
    suggestions := []
    penalty := penalty }

/-- `commonLibraries` of `checkLibraryAvailability`
(`compatibility.ts` lines 472-475). -/
def commonLibraries : List String :=
  ["Arduino", "Wire", "SPI", "SoftwareSerial", "Servo",
   "LiquidCrystal", "DHT", "OneWire", "Adafruit_Sensor"]

/-- `checkLibraryAvailability` of `compatibility.ts` (lines 470-480):
case-insensitive substring match of a known library name inside the
required library name.  The `boardType` argument is accepted and
ignored, exactly as in the source. -/
def checkLibraryAvailability (library : String) (boardType : String) : Bool :=
  commonLibraries.any fun lib => charsIncludes (lowerChars library) (lowerChars lib)

/-- `checkLibrarySupport` of `compatibility.ts` (lines 400-434).
The `for` loop over the required libraries is the fold below; note the
hard-coded `compatible: true` of line 429. -/
def checkLibrarySupport (board : Board) (component : Component) : RuleOutcome :=
  let requiredLibraries := component.requiredLibraries
  let folded := requiredLibraries.foldl
    (fun (acc : List CompatibilityIssue × Int) library =>
      if checkLibraryAvailability library board.type then acc
      else
        (acc.1 ++
          [{ type := IssueKind.library
             severity := Severity.warning
             message := "Library may not be available: " ++ library
             solution := some "Check Arduino Library Manager or install manually" }],
         acc.2 + 5))
    ([], 0)
  { compatible := true
    issues := folded.1
    suggestions := []
    penalty := folded.2 }

/-- `checkPhysicalConstraints` of `compatibility.ts` (lines 436-468);
note the hard-coded `compatible: true` of line 463. -/
def checkPhysicalConstraints (board : Board) (component : Component) : RuleOutcome :=
  match component.dimensions with
  | some compSize =>
    if compSize.length > 50 ∨ compSize.width > 50 then
      { compatible := true
        issues := [{ type := IssueKind.physical
                     severity := Severity.info
                     message := "Large component: " ++ ratStr compSize.length ++ "×" ++
                       ratStr compSize.width ++ "mm - ensure adequate space"
                     solution := some "Verify board has sufficient space and consider mounting" }]
        suggestions := []
        penalty := 2 }
    else
      { compatible := true, issues := [], suggestions := [], penalty := 0 }
  | none => { compatible := true, issues := [], suggestions := [], penalty := 0 }

/-- The six rule evaluations of `analyzeCompatibility`, in the order the
source performs them: voltage, current, protocol, pins, library,
physical. -/
def ruleOutcomes (board : Board) (component : Component) : List RuleOutcome :=
  [checkVoltageCompatibility board component,
   checkCurrentRequirements board component,
   checkProtocolCompatibility board component,
   checkPinAvailability board component,
   checkLibrarySupport board component,
   checkPhysicalConstraints board component]

/-- Running accumulator of `analyzeCompatibility`: the mutable
`issues`, `suggestions` and `score` locals. -/
structure AggState where
  issues : List CompatibilityIssue
  suggestions : List String
  score : Int
deriving DecidableEq, Repr

/-- One `if (!analysis.compatible) { issues.push(...); suggestions.push(...);
score -= analysis.penalty; }` block of `analyzeCompatibility`. -/
def incorporate (st : AggState) (analysis : RuleOutcome) : AggState :=
  if !analysis.compatible then
    { issues := st.issues ++ analysis.issues
      suggestions := st.suggestions ++ analysis.suggestions
      score := st.score - analysis.penalty }
  else st

/-- The aggregation of `analyzeCompatibility` (lines 87-153): the six
incorporation blocks in sequence (a fold over the outcome list), then
the error count, the severity sort, the suggestion deduplication and
the score clamp `Math.max(0, Math.min(100, score))`. -/
def aggregate (outcomes : List RuleOutcome) : CompatibilityCheck :=
  let final := outcomes.foldl incorporate { issues := [], suggestions := [], score := 100 }
  { compatible := errorCount final.issues == 0
    issues := sortIssues final.issues
    suggestions := dedupFirst final.suggestions
    score := max 0 (min 100 final.score) }

/-- `analyzeCompatibility` of `compatibility.ts` (lines 87-153). -/
def analyzeCompatibility (board : Board) (component : Component) : CompatibilityCheck :=
  aggregate (ruleOutcomes board component)

/-- Issues of the rule outcomes that `analyzeCompatibility` actually
merges: those of the rules that report `compatible = false`, in rule
order. -/
def incorporatedIssues (outcomes : List RuleOutcome) : List CompatibilityIssue :=
  (outcomes.filter fun o => !o.compatible).flatMap RuleOutcome.issues

/-- Suggestions merged by `analyzeCompatibility`, in rule order. -/
def incorporatedSuggestions (outcomes : List RuleOutcome) : List String :=
  (outcomes.filter fun o => !o.compatible).flatMap RuleOutcome.suggestions

/-- Total penalty subtracted from the initial score of 100 by
`analyzeCompatibility`. -/
def incorporatedPenalty (outcomes : List RuleOutcome) : Int :=
  (((outcomes.filter fun o => !o.compatible).map RuleOutcome.penalty)).sum

/-- Error thrown by `checkCompatibility` when the catalog lookup comes
back empty: `throw new Error('Board or component not found')`. -/
inductive CheckError where
  | notFound
deriving DecidableEq, Repr

/-- The `cache.get` wrapper of `connection.ts` (lines 118-125): the raw
backend call either yields a value (`null` for a miss) or throws; the
wrapper catches every throw and returns `null`.  The backend error
payload is embedded as a string. -/
def cacheGet (raw : Except String (Option CompatibilityCheck)) : Option CompatibilityCheck :=
  match raw with
  | Except.ok v => v
  | Except.error _ => none

/-- The `cache.set` wrapper of `connection.ts` (lines 127-137): errors
of the backend write are caught and swallowed; in every case the
wrapper returns unit. -/
def cacheSet (raw : Except String Unit) : Unit :=
  match raw with
  | Except.ok _ => ()
  | Except.error _ => ()

/-- `checkCompatibility` of `compatibility.ts` (lines 14-49), with the
external collaborators passed in explicitly:

* `rawGet` — what the cache backend did for the `cache.get` of the
  computed key (the cached value is embedded already deserialized);
* `board?`, `component?` — what `getBoard` and `getComponent` resolved
  (those helpers return `null` on any repository error);
* `rawSet` — what the cache backend did for the final `cache.set`.

On a hit the cached value is returned unchanged; on a miss a `null`
board or component raises `notFound`, otherwise the analysis runs, the
write outcome is swallowed by the `cache.set` wrapper, and the computed
check is returned. -/
def checkCompatibility (rawGet : Except String (Option CompatibilityCheck))
    (board? : Option Board) (component? : Option Component)
    (rawSet : Except String Unit) : Except CheckError CompatibilityCheck :=
  match cacheGet rawGet with
  | some cached => Except.ok cached
  | none =>
    match board?, component? with
    | some board, some component =>
      let compatibility := analyzeCompatibility board component
      let _ := cacheSet rawSet
      Except.ok compatibility
    | _, _ => Except.error CheckError.notFound

/-- `createErrorCompatibility` of `compatibility.ts` (lines 522-534). -/
def createErrorCompatibility : CompatibilityCheck :=
  { compatible := false
    issues := [{ type := IssueKind.error
                 severity := Severity.error
                 message := "Compatibility check failed"
                 solution := some "Please try again or contact support" }]
    suggestions := []
    score := 0 }

/-- `results.set(componentId, value)` on the JS `Map`: replace the value
of an existing key in place, else append a new entry.  (A JS `Map`
never holds a key twice, so replacing the first hit is exact.) -/
def mapSet (m : List (String × CompatibilityCheck)) (k : String) (v : CompatibilityCheck) :
    List (String × CompatibilityCheck) :=
  match m with
  | [] => [(k, v)]
  | p :: ps => if p.1 = k then (k, v) :: ps else p :: mapSet ps k v

/-- The batch slicing of `getBulkCompatibility`:
`componentIds.slice(i, i + batchSize)` for `i = 0, batchSize, ...`. -/
def chunksOf (n : Nat) : List α → List (List α)
  | [] => []
  | x :: xs => (x :: xs.take (n - 1)) :: chunksOf n (xs.drop (n - 1))
termination_by l => l.length
decreasing_by
  simp only [List.length_cons, List.length_drop]
  omega

/-- `getBulkCompatibility` of `compatibility.ts` (lines 61-85).  The
per-item evaluation (the promise of `checkCompatibility(boardId,
componentId)`, settled by `Promise.allSettled`) is abstracted as a
function from the component reference to its settled outcome; a
rejection carries no data the service reads beyond logging.  Batches of
10 are evaluated in order, and each settled result is written into the
result map: fulfilled items store their value, rejected items store
`createErrorCompatibility`.  The function is total: no outcome makes it
throw. -/
def getBulkCompatibility (check : String → Except Unit CompatibilityCheck)
    (componentIds : List String) : List (String × CompatibilityCheck) :=
  (chunksOf 10 componentIds).foldl
    (fun results batch =>
      batch.foldl
        (fun results componentId =>
          match check componentId with
          | Except.ok value => mapSet results componentId value
          | Except.error _ => mapSet results componentId createErrorCompatibility)
        results)
    []

/-- The per-item settled value of a bulk evaluation: the fulfilled value
for a success, `createErrorCompatibility` for a rejection (the two arms
of the `forEach` in `getBulkCompatibility`). -/
def bulkResult (check : String → Except Unit CompatibilityCheck)
    (componentId : String) : CompatibilityCheck :=
  match check componentId with
  | Except.ok value => value
  | Except.error _ => createErrorCompatibility

/-- An all-benign board used as a concrete evaluation point: 5V I/O,
20mA per pin, 200mA budget, no declared protocols or pins. -/
def okBoard : Board :=
  { type := "microcontroller", ioVoltage := 5, currentPerPin := 20, currentTotal := 200,
    supportedProtocols := [], pins := [] }

/-- A component that is compatible with `okBoard` in every dimension. -/
def okComponent : Component :=
  { voltageMin := 4, voltageMax := 6, currentOperatingMax := 1, communication := [],
    pins := [], dimensions := none, requiredLibraries := [] }

/-- A 3V-I/O board used for the voltage-warning evaluation. -/
def warnBoard : Board :=
  { type := "microcontroller", ioVoltage := 3, currentPerPin := 20, currentTotal := 200,
    supportedProtocols := [], pins := [] }

/-- A component whose operating range sits 1V above `warnBoard` (a
mismatch within the 1.5V warning band). -/
def warnComponent : Component :=
  { voltageMin := 4, voltageMax := 5, currentOperatingMax := 1, communication := [],
    pins := [], dimensions := none, requiredLibraries := [] }

/-- A component requiring a library matching none of `commonLibraries`. -/
def libComponent : Component :=
  { voltageMin := 4, voltageMax := 6, currentOperatingMax := 1, communication := [],
    pins := [], dimensions := none, requiredLibraries := ["SuperLib9000"] }

/-- A board with a 15mA total budget and a 20mA per-pin limit, so a
10mA component trips only the total-budget warning. -/
def budgetBoard : Board :=
  { type := "microcontroller", ioVoltage := 5, currentPerPin := 20, currentTotal := 15,
    supportedProtocols := [], pins := [] }

/-- A 10mA component: below the per-pin thresholds of `budgetBoard` but
above half its total budget. -/
def budgetComponent : Component :=
  { voltageMin := 4, voltageMax := 6, currentOperatingMax := 10, communication := [],
    pins := [], dimensions := none, requiredLibraries := [] }

/-- A board with a 40mA total budget, so that a 25mA component trips
both the per-pin error and the total-budget warning. -/
def accumBoard : Board :=
  { type := "microcontroller", ioVoltage := 5, currentPerPin := 20, currentTotal := 40,
    supportedProtocols := [], pins := [] }

/-- A 25mA component: above the 20mA per-pin limit of `accumBoard` and
above half its 40mA budget. -/
def accumComponent : Component :=
  { voltageMin := 4, voltageMax := 6, currentOperatingMax := 25, communication := [],
    pins := [], dimensions := none, requiredLibraries := [] }

/-- A board on which both the voltage rule and the current rule of
`permComponent` produce error issues, exhibiting the tie-order
sensitivity of the aggregation. -/
def permBoard : Board :=
  { type := "microcontroller", ioVoltage := 5, currentPerPin := 20, currentTotal := 200,
    supportedProtocols := [], pins := [] }

/-- A component producing a voltage error (range [2,3] against 5V) and
a current error (30mA against 20mA per pin) on `permBoard`. -/
def permComponent : Component :=
  { voltageMin := 2, voltageMax := 3, currentOperatingMax := 30, communication := [],
    pins := [], dimensions := none, requiredLibraries := [] }

/-- The six rule outcomes of `permBoard`/`permComponent` with the first
two evaluators transposed: current before voltage. -/
def permutedOutcomes : List RuleOutcome :=
  [checkCurrentRequirements permBoard permComponent,
   checkVoltageCompatibility permBoard permComponent,
   checkProtocolCompatibility permBoard permComponent,
   checkPinAvailability permBoard permComponent,
   checkLibrarySupport permBoard permComponent,
   checkPhysicalConstraints permBoard permComponent]

/-! ### Characterization of the aggregation fold -/

theorem foldl_incorporate (outcomes : List RuleOutcome) (st : AggState) :
    outcomes.foldl incorporate st =
      { issues := st.issues ++ incorporatedIssues outcomes
        suggestions := st.suggestions ++ incorporatedSuggestions outcomes
        score := st.score - incorporatedPenalty outcomes } := by
  induction outcomes generalizing st with
  | nil =>
    simp [incorporatedIssues, incorporatedSuggestions, incorporatedPenalty]
  | cons o os ih =>
    simp only [List.foldl_cons]
    rw [ih]
    by_cases h : o.compatible
    · simp [incorporate, h, incorporatedIssues, incorporatedSuggestions,
        incorporatedPenalty, List.filter_cons]
    · simp only [Bool.not_eq_true] at h
      simp [incorporate, h, incorporatedIssues, incorporatedSuggestions,
        incorporatedPenalty, List.filter_cons, List.append_assoc, sub_sub]

theorem aggregate_eq (outcomes : List RuleOutcome) :
    aggregate outcomes =
      { compatible := errorCount (incorporatedIssues outcomes) == 0
        issues := sortIssues (incorporatedIssues outcomes)
        suggestions := dedupFirst (incorporatedSuggestions outcomes)
        score := max 0 (min 100 (100 - incorporatedPenalty outcomes)) } := by
  unfold aggregate
  rw [foldl_incorporate]
  simp

/-! ### The severity sort -/

theorem sortIssues_perm (l : List CompatibilityIssue) : (sortIssues l).Perm l :=
  List.perm_insertionSort severityLe l

theorem sortIssues_sorted (l : List CompatibilityIssue) :
    List.Sorted severityLe (sortIssues l) :=
  List.sorted_insertionSort severityLe l

theorem orderedInsert_append_of_gt (x : CompatibilityIssue)
    (l₁ l₂ : List CompatibilityIssue) (h : ∀ y ∈ l₁, ¬ severityLe x y) :
    List.orderedInsert severityLe x (l₁ ++ l₂) =
      l₁ ++ List.orderedInsert severityLe x l₂ := by
  induction l₁ with
  | nil => rfl
  | cons y ys ih =>
    simp only [List.cons_append, List.orderedInsert]
    rw [if_neg (h y (List.mem_cons_self y ys))]
    exact congrArg (y :: ·) (ih fun z hz => h z (List.mem_cons_of_mem y hz))

theorem orderedInsert_eq_cons (x : CompatibilityIssue) (l : List CompatibilityIssue)
    (h : ∀ y ∈ l, severityLe x y) :
    List.orderedInsert severityLe x l = x :: l := by
  cases l with
  | nil => rfl
  | cons y ys =>
    simp only [List.orderedInsert]
    rw [if_pos (h y (List.mem_cons_self y ys))]

theorem severity_of_mem_filter {l : List CompatibilityIssue} {s : Severity}
    {y : CompatibilityIssue} (hy : y ∈ l.filter fun i => i.severity == s) :
    y.severity = s := by
  have := (List.mem_filter.mp hy).2
  simpa using this

/-- Stability of the severity sort: it is exactly the errors, then the
warnings, then the infos, each block in the original order. -/
theorem sortIssues_eq_filters (l : List CompatibilityIssue) :
    sortIssues l =
      (l.filter fun i => i.severity == Severity.error) ++
      (l.filter fun i => i.severity == Severity.warning) ++
      (l.filter fun i => i.severity == Severity.info) := by
  induction l with
  | nil => rfl
  | cons x xs ih =>
    show List.orderedInsert severityLe x (sortIssues xs) = _
    rw [ih]
    cases hx : x.severity with
    | error =>
      rw [orderedInsert_eq_cons x _ ?_]
      · simp [List.filter_cons, hx]
      · intro y _
        simp [severityLe, hx, severityRank]
    | warning =>
      rw [List.append_assoc, orderedInsert_append_of_gt x _ _ ?_,
        orderedInsert_eq_cons x _ ?_]
      · simp [List.filter_cons, hx]
      · intro y hy
        rcases List.mem_append.mp hy with hw | hi
        · have := severity_of_mem_filter hw
          simp [severityLe, hx, this, severityRank]
        · have := severity_of_mem_filter hi
          simp [severityLe, hx, this, severityRank]
      · intro y hy
        have := severity_of_mem_filter hy
        simp [severityLe, hx, this, severityRank]
    | info =>
      rw [orderedInsert_append_of_gt x _ _ ?_, orderedInsert_eq_cons x _ ?_]
      · simp [List.filter_cons, hx]
      · intro y hy
        have := severity_of_mem_filter hy
        simp [severityLe, hx, this, severityRank]
      · intro y hy
        rcases List.mem_append.mp hy with he | hw
        · have := severity_of_mem_filter he
          simp [severityLe, hx, this, severityRank]
        · have := severity_of_mem_filter hw
          simp [severityLe, hx, this, severityRank]

/-! ### Deduplication of suggestions -/

theorem mem_foldl_dedup (l : List String) (acc : List String) (a : String) :
    a ∈ l.foldl (fun acc s => if acc.contains s then acc else acc ++ [s]) acc ↔
      a ∈ acc ∨ a ∈ l := by
  induction l generalizing acc with
  | nil => simp
  | cons x xs ih =>
    simp only [List.foldl_cons]
    rw [ih]
    by_cases h : acc.contains x
    · have hx : x ∈ acc := by simpa using h
      rw [if_pos h]
      simp only [List.mem_cons]
      constructor
      · tauto
      · rintro (ha | rfl | ha)
        · exact Or.inl ha
        · exact Or.inl hx
        · exact Or.inr ha
    · rw [if_neg h]
      simp only [List.mem_append, List.mem_singleton, List.mem_cons]
      tauto

theorem nodup_foldl_dedup (l : List String) (acc : List String) (h : acc.Nodup) :
    (l.foldl (fun acc s => if acc.contains s then acc else acc ++ [s]) acc).Nodup := by
  induction l generalizing acc with
  | nil => simpa
  | cons x xs ih =>
    simp only [List.foldl_cons]
    by_cases hx : acc.contains x
    · rw [if_pos hx]
      exact ih acc h
    · rw [if_neg hx]
      refine ih _ ?_
      have hmem : x ∉ acc := by simpa using hx
      simp [List.nodup_append, h, hmem]

theorem dedupFirst_mem (l : List String) (a : String) :
    a ∈ dedupFirst l ↔ a ∈ l := by
  unfold dedupFirst
  rw [mem_foldl_dedup]
  simp

theorem dedupFirst_nodup (l : List String) : (dedupFirst l).Nodup :=
  nodup_foldl_dedup l [] List.nodup_nil

theorem dedupFirst_perm {l₁ l₂ : List String} (h : l₁.Perm l₂) :
    (dedupFirst l₁).Perm (dedupFirst l₂) := by
  rw [List.perm_ext_iff_of_nodup (dedupFirst_nodup l₁) (dedupFirst_nodup l₂)]
  intro a
  rw [dedupFirst_mem, dedupFirst_mem]
  exact h.mem_iff

/-! ### Error counts and the per-rule compatible flags -/

theorem errorCount_eq_zero_iff (l : List CompatibilityIssue) :
    errorCount l = 0 ↔ ∀ i ∈ l, i.severity ≠ Severity.error := by
  unfold errorCount
  rw [List.length_eq_zero, List.filter_eq_nil_iff]
  simp

theorem errorCount_pos_of_mem {l : List CompatibilityIssue} {i : CompatibilityIssue}
    (hi : i ∈ l) (hsev : i.severity = Severity.error) : 0 < errorCount l := by
  unfold errorCount
  rw [← List.countP_eq_length_filter]
  exact List.countP_pos_iff.mpr ⟨i, hi, by simp [hsev]⟩

theorem checkVoltageCompatibility_compatible (board : Board) (component : Component) :
    (checkVoltageCompatibility board component).compatible =
      (errorCount (checkVoltageCompatibility board component).issues == 0) := rfl

theorem checkCurrentRequirements_compatible (board : Board) (component : Component) :
    (checkCurrentRequirements board component).compatible =
      (errorCount (checkCurrentRequirements board component).issues == 0) := rfl

theorem checkProtocolCompatibility_compatible (board : Board) (component : Component) :
    (checkProtocolCompatibility board component).compatible =
      (errorCount (checkProtocolCompatibility board component).issues == 0) := by
  simp only [checkProtocolCompatibility]
  split
  · rfl
  · rfl

theorem checkPinAvailability_compatible (board : Board) (component : Component) :
    (checkPinAvailability board component).compatible =
      (errorCount (checkPinAvailability board component).issues == 0) := rfl

theorem checkLibrarySupport_compatible (board : Board) (component : Component) :
    (checkLibrarySupport board component).compatible = true := rfl

theorem checkPhysicalConstraints_compatible (board : Board) (component : Component) :
    (checkPhysicalConstraints board component).compatible = true := by
  unfold checkPhysicalConstraints
  cases component.dimensions with
  | none => rfl
  | some d =>
    simp only []
    split
    · rfl
    · rfl

/-- A rule outcome of the engine reports itself incompatible only when
it holds at least one error-severity issue. -/
theorem incompatible_has_error (board : Board) (component : Component) :
    ∀ o ∈ ruleOutcomes board component,
      o.compatible = false → 0 < errorCount o.issues := by
  intro o ho hcomp
  simp only [ruleOutcomes, List.mem_cons, List.not_mem_nil, or_false] at ho
  rcases ho with rfl | rfl | rfl | rfl | rfl | rfl
  · rw [checkVoltageCompatibility_compatible] at hcomp
    simp only [beq_eq_false_iff_ne, ne_eq] at hcomp
    omega
  · rw [checkCurrentRequirements_compatible] at hcomp
    simp only [beq_eq_false_iff_ne, ne_eq] at hcomp
    omega
  · rw [checkProtocolCompatibility_compatible] at hcomp
    simp only [beq_eq_false_iff_ne, ne_eq] at hcomp
    omega
  · rw [checkPinAvailability_compatible] at hcomp
    simp only [beq_eq_false_iff_ne, ne_eq] at hcomp
    omega
  · rw [checkLibrarySupport_compatible] at hcomp
    exact absurd hcomp (by simp)
  · rw [checkPhysicalConstraints_compatible] at hcomp
    exact absurd hcomp (by simp)

/-! ### The claims -/

/-- C1: for every CompatibilityCheck produced by the aggregation step
(the cache-miss path of checkCompatibility), the compatible flag is
true if and only if the issues list contains no issue of severity
error. -/
theorem compatible_iff_no_error_issue (board : Board) (component : Component) :
    (analyzeCompatibility board component).compatible = true ↔
      ∀ i ∈ (analyzeCompatibility board component).issues,
        i.severity ≠ Severity.error := by
  rw [analyzeCompatibility, aggregate_eq]
  simp only [beq_iff_eq]
  rw [errorCount_eq_zero_iff]
  constructor
  · intro h i hi
    exact h i ((sortIssues_perm _).mem_iff.mp hi)
  · intro h i hi
    exact h i ((sortIssues_perm _).mem_iff.mpr hi)

/-- C2: on the cache-miss path the score is an integer equal to 100
minus the sum of the incorporated rule penalties, clamped into
`[0, 100]` (the clamp `Math.max(0, Math.min(100, score))`). -/
theorem score_formula_and_bounds (board : Board) (component : Component) :
    (analyzeCompatibility board component).score =
      max 0 (min 100 (100 - incorporatedPenalty (ruleOutcomes board component))) ∧
    0 ≤ (analyzeCompatibility board component).score ∧
    (analyzeCompatibility board component).score ≤ 100 := by
  rw [analyzeCompatibility, aggregate_eq]
  refine ⟨rfl, le_max_left 0 _, ?_⟩
  exact max_le (by norm_num) (min_le_left _ _)

/-- C3: whenever the aggregated check reports compatible, its issues
and suggestions are empty and its score is exactly 100 — a rule outcome
is merged only when it reports itself incompatible, which happens only
with an error issue on board, and the library and physical rules are
hard-coded compatible. -/
theorem compatible_implies_perfect (board : Board) (component : Component)
    (h : (analyzeCompatibility board component).compatible = true) :
    (analyzeCompatibility board component).issues = [] ∧
    (analyzeCompatibility board component).suggestions = [] ∧
    (analyzeCompatibility board component).score = 100 ∧
    (checkLibrarySupport board component).compatible = true ∧
    (checkPhysicalConstraints board component).compatible = true := by
  have hzero : errorCount (incorporatedIssues (ruleOutcomes board component)) = 0 := by
    rw [analyzeCompatibility, aggregate_eq] at h
    simpa using h
  have hnone : (ruleOutcomes board component).filter (fun o => !o.compatible) = [] := by
    rw [List.filter_eq_nil_iff]
    intro o ho hbad
    have hfalse : o.compatible = false := by simpa using hbad
    have hex : ∃ i ∈ o.issues, i.severity = Severity.error := by
      have hpos := incompatible_has_error board component o ho hfalse
      unfold errorCount at hpos
      rw [← List.countP_eq_length_filter] at hpos
      obtain ⟨i, hi, hp⟩ := List.countP_pos_iff.mp hpos
      exact ⟨i, hi, by simpa using hp⟩
    obtain ⟨i, hi, hsev⟩ := hex
    have himem : i ∈ incorporatedIssues (ruleOutcomes board component) := by
      unfold incorporatedIssues
      rw [List.mem_flatMap]
      refine ⟨o, ?_, hi⟩
      rw [List.mem_filter]
      exact ⟨ho, by simp [hfalse]⟩
    have := errorCount_pos_of_mem himem hsev
    omega
  have hIss : incorporatedIssues (ruleOutcomes board component) = [] := by
    unfold incorporatedIssues
    rw [hnone]
    rfl
  have hSugg : incorporatedSuggestions (ruleOutcomes board component) = [] := by
    unfold incorporatedSuggestions
    rw [hnone]
    rfl
  have hPen : incorporatedPenalty (ruleOutcomes board component) = 0 := by
    unfold incorporatedPenalty
    rw [hnone]
    rfl
  rw [analyzeCompatibility, aggregate_eq]
  refine ⟨?_, ?_, ?_, checkLibrarySupport_compatible board component,
    checkPhysicalConstraints_compatible board component⟩
  · rw [hIss]; rfl
  · rw [hSugg]; rfl
  · rw [hPen]; rfl

/-- Witness for C3 at a concrete compatible pair. -/
theorem compatible_implies_perfect_witness :
    (analyzeCompatibility okBoard okComponent).compatible = true ∧
    ((analyzeCompatibility okBoard okComponent).issues = [] ∧
     (analyzeCompatibility okBoard okComponent).suggestions = [] ∧
     (analyzeCompatibility okBoard okComponent).score = 100 ∧
     (checkLibrarySupport okBoard okComponent).compatible = true ∧
     (checkPhysicalConstraints okBoard okComponent).compatible = true) := by
  have h : (analyzeCompatibility okBoard okComponent).compatible = true := by
    norm_num [analyzeCompatibility, aggregate, ruleOutcomes, incorporate,
      checkVoltageCompatibility, checkCurrentRequirements, checkProtocolCompatibility,
      checkPinAvailability, checkLibrarySupport, checkPhysicalConstraints,
      errorCount, sortIssues, dedupFirst, okBoard, okComponent]
  exact ⟨h, compatible_implies_perfect okBoard okComponent h⟩

/-- C4: the issues list of every aggregated check is sorted by severity
rank (each error before each warning before each info), and issues of
equal severity keep the order of the incorporated rule outcomes, which
follow the fixed declaration order voltage, current, protocol, pins,
library, physical. -/
theorem issues_sorted_by_severity (board : Board) (component : Component) :
    List.Sorted severityLe (analyzeCompatibility board component).issues ∧
    (analyzeCompatibility board component).issues =
      ((incorporatedIssues (ruleOutcomes board component)).filter
        fun i => i.severity == Severity.error) ++
      ((incorporatedIssues (ruleOutcomes board component)).filter
        fun i => i.severity == Severity.warning) ++
      ((incorporatedIssues (ruleOutcomes board component)).filter
        fun i => i.severity == Severity.info) := by
  rw [analyzeCompatibility, aggregate_eq]
  exact ⟨sortIssues_sorted _, sortIssues_eq_filters _⟩

/-- C5 (evaluation at the failing input): for the 3V board and the
`[4,5]`V component the mismatch is within the 1.5V band, the voltage
rule itself emits one warning-severity voltage issue with penalty 20 —
but it reports itself compatible, so the returned CompatibilityCheck
carries no issue at all and a full score of 100, against the claim that
the warning appears in the result and 20 is subtracted. -/
theorem voltage_warning_dropped_eval :
    warnComponent.voltageMin > warnBoard.ioVoltage ∧
    |warnBoard.ioVoltage - warnComponent.voltageMin| ≤ 1.5 ∧
    ((checkVoltageCompatibility warnBoard warnComponent).issues.map
      fun i => (i.type, i.severity)) = [(IssueKind.voltage, Severity.warning)] ∧
    (checkVoltageCompatibility warnBoard warnComponent).penalty = 20 ∧
    (checkVoltageCompatibility warnBoard warnComponent).compatible = true ∧
    analyzeCompatibility warnBoard warnComponent =
      { compatible := true, issues := [], suggestions := [], score := 100 } := by
  norm_num [analyzeCompatibility, aggregate, ruleOutcomes, incorporate,
    checkVoltageCompatibility, checkCurrentRequirements, checkProtocolCompatibility,
    checkPinAvailability, checkLibrarySupport, checkPhysicalConstraints,
    errorCount, sortIssues, dedupFirst, warnBoard, warnComponent]
  simp [sortIssues, dedupFirst, errorCount]

/-- C6 (evaluation at the failing input): the required library
`SuperLib9000` matches no common library, so the library rule emits one
warning-severity library issue with penalty 5 and still reports itself
compatible (hard-coded) — the returned CompatibilityCheck therefore
carries no library issue and the score stays 100, against the claim
that the warning appears in the result and 5 is subtracted. -/
theorem library_warning_dropped_eval :
    checkLibraryAvailability "SuperLib9000" okBoard.type = false ∧
    ((checkLibrarySupport okBoard libComponent).issues.map
      fun i => (i.type, i.severity)) = [(IssueKind.library, Severity.warning)] ∧
    (checkLibrarySupport okBoard libComponent).penalty = 5 ∧
    (checkLibrarySupport okBoard libComponent).compatible = true ∧
    analyzeCompatibility okBoard libComponent =
      { compatible := true, issues := [], suggestions := [], score := 100 } := by
  have h9 : checkLibraryAvailability "SuperLib9000" "microcontroller" = false := by decide
  refine ⟨by decide, ?_⟩
  norm_num [analyzeCompatibility, aggregate, ruleOutcomes, incorporate,
    checkVoltageCompatibility, checkCurrentRequirements, checkProtocolCompatibility,
    checkPinAvailability, checkLibrarySupport, checkPhysicalConstraints,
    errorCount, sortIssues, dedupFirst, okBoard, libComponent, h9]

/-- C7 (evaluation at the failing input, plus the error case): a 10mA
component on a board with a 15mA total budget trips only the
total-budget warning (penalty 5), which the current rule carries while
reporting itself compatible — the returned check is empty with score
100, against the claim that the warning is always surfaced with 5
subtracted.  The accumulation the claim describes does happen when the
per-pin error also fires: 25mA on a 20mA pin with a 40mA budget
produces penalty 40 + 5 = 45 and a final score of 55. -/
theorem current_budget_warning_dropped_eval :
    budgetComponent.currentOperatingMax > budgetBoard.currentTotal * 0.5 ∧
    ((checkCurrentRequirements budgetBoard budgetComponent).issues.map
      fun i => (i.type, i.severity)) = [(IssueKind.current, Severity.warning)] ∧
    (checkCurrentRequirements budgetBoard budgetComponent).penalty = 5 ∧
    (checkCurrentRequirements budgetBoard budgetComponent).compatible = true ∧
    analyzeCompatibility budgetBoard budgetComponent =
      { compatible := true, issues := [], suggestions := [], score := 100 } ∧
    (checkCurrentRequirements accumBoard accumComponent).penalty = 45 ∧
    ((analyzeCompatibility accumBoard accumComponent).issues.map
      fun i => (i.type, i.severity)) =
      [(IssueKind.current, Severity.error), (IssueKind.current, Severity.warning)] ∧
    (analyzeCompatibility accumBoard accumComponent).score = 55 := by
  norm_num [analyzeCompatibility, aggregate, ruleOutcomes, incorporate,
    checkVoltageCompatibility, checkCurrentRequirements, checkProtocolCompatibility,
    checkPinAvailability, checkLibrarySupport, checkPhysicalConstraints,
    errorCount, sortIssues, dedupFirst, List.insertionSort, List.orderedInsert,
    severityLe, severityRank,
    budgetBoard, budgetComponent, accumBoard, accumComponent]
  simp [sortIssues, dedupFirst, errorCount, List.insertionSort, List.orderedInsert,
    severityLe, severityRank]

/-- C8 (counterexample): transposing the voltage and current evaluators
and aggregating as the code does (severity sort only) does not yield an
identical CompatibilityCheck on a pair where both rules produce error
issues — the two equal-severity issues come out in evaluation order. -/
theorem aggregate_perm_counterexample :
    permutedOutcomes.Perm (ruleOutcomes permBoard permComponent) ∧
    aggregate permutedOutcomes ≠ analyzeCompatibility permBoard permComponent := by
  constructor
  · exact List.Perm.swap _ _ _
  · intro hEq
    have h1 : (aggregate permutedOutcomes).issues.map (fun i => i.type) =
        [IssueKind.current, IssueKind.voltage] := by
      norm_num [aggregate, permutedOutcomes, incorporate,
        checkVoltageCompatibility, checkCurrentRequirements, checkProtocolCompatibility,
        checkPinAvailability, checkLibrarySupport, checkPhysicalConstraints,
        errorCount, sortIssues, dedupFirst, List.insertionSort, List.orderedInsert,
        severityLe, severityRank, permBoard, permComponent]
    have h2 : (analyzeCompatibility permBoard permComponent).issues.map (fun i => i.type) =
        [IssueKind.voltage, IssueKind.current] := by
      norm_num [analyzeCompatibility, aggregate, ruleOutcomes, incorporate,
        checkVoltageCompatibility, checkCurrentRequirements, checkProtocolCompatibility,
        checkPinAvailability, checkLibrarySupport, checkPhysicalConstraints,
        errorCount, sortIssues, dedupFirst, List.insertionSort, List.orderedInsert,
        severityLe, severityRank, permBoard, permComponent]
    rw [hEq, h2] at h1
    exact absurd h1 (by decide)

/-- C8 (amended): evaluating the six rules in any permutation and
aggregating as the code does yields the same compatible flag and the
same score, and issue and suggestion lists that are permutations of the
fixed-order ones; the lists themselves need not be identical, because
the severity sort breaks ties by evaluation order. -/
theorem aggregate_perm_invariant (board : Board) (component : Component)
    (outcomes : List RuleOutcome)
    (h : outcomes.Perm (ruleOutcomes board component)) :
    (aggregate outcomes).compatible = (analyzeCompatibility board component).compatible ∧
    (aggregate outcomes).score = (analyzeCompatibility board component).score ∧
    (aggregate outcomes).issues.Perm (analyzeCompatibility board component).issues ∧
    (aggregate outcomes).suggestions.Perm
      (analyzeCompatibility board component).suggestions := by
  have hfil : (outcomes.filter fun o => !o.compatible).Perm
      ((ruleOutcomes board component).filter fun o => !o.compatible) := h.filter _
  have hIss : (incorporatedIssues outcomes).Perm
      (incorporatedIssues (ruleOutcomes board component)) :=
    hfil.flatMap_right RuleOutcome.issues
  have hSugg : (incorporatedSuggestions outcomes).Perm
      (incorporatedSuggestions (ruleOutcomes board component)) :=
    hfil.flatMap_right RuleOutcome.suggestions
  have hPen : incorporatedPenalty outcomes =
      incorporatedPenalty (ruleOutcomes board component) :=
    (hfil.map RuleOutcome.penalty).sum_eq
  rw [analyzeCompatibility, aggregate_eq, aggregate_eq]
  refine ⟨?_, ?_, ?_, ?_⟩
  · show (errorCount (incorporatedIssues outcomes) == 0) =
      (errorCount (incorporatedIssues (ruleOutcomes board component)) == 0)
    unfold errorCount
    rw [(hIss.filter _).length_eq]
  · show max 0 (min 100 (100 - incorporatedPenalty outcomes)) = _
    rw [hPen]
  · exact (sortIssues_perm _).trans (hIss.trans (sortIssues_perm _).symm)
  · exact dedupFirst_perm hSugg

/-- Witness for the amended C8 at the transposed outcome list. -/
theorem aggregate_perm_invariant_witness :
    permutedOutcomes.Perm (ruleOutcomes permBoard permComponent) ∧
    ((aggregate permutedOutcomes).compatible =
        (analyzeCompatibility permBoard permComponent).compatible ∧
     (aggregate permutedOutcomes).score =
        (analyzeCompatibility permBoard permComponent).score ∧
     (aggregate permutedOutcomes).issues.Perm
        (analyzeCompatibility permBoard permComponent).issues ∧
     (aggregate permutedOutcomes).suggestions.Perm
        (analyzeCompatibility permBoard permComponent).suggestions) :=
  ⟨List.Perm.swap _ _ _,
   aggregate_perm_invariant permBoard permComponent permutedOutcomes
     (List.Perm.swap _ _ _)⟩

/-! ### Bulk evaluation -/

theorem chunksOf_flatten_aux (n : Nat) :
    ∀ (k : Nat) (l : List α), l.length ≤ k → (chunksOf n l).flatten = l := by
  intro k
  induction k with
  | zero =>
    intro l hl
    have : l = [] := List.eq_nil_of_length_eq_zero (Nat.le_zero.mp hl)
    subst this
    rw [chunksOf]
    rfl
  | succ k ih =>
    intro l hl
    cases l with
    | nil =>
      rw [chunksOf]
      rfl
    | cons x xs =>
      rw [chunksOf]
      simp only [List.flatten_cons]
      rw [ih (xs.drop (n - 1)) ?_]
      · simp [List.cons_append]
      · have hx : xs.length ≤ k := by
          simpa using Nat.succ_le_succ_iff.mp hl
        have := List.length_drop (n - 1) xs
        omega

theorem chunksOf_flatten (n : Nat) (l : List α) : (chunksOf n l).flatten = l :=
  chunksOf_flatten_aux n l.length l le_rfl

theorem foldl_flatten (g : β → α → β) (L : List (List α)) (init : β) :
    L.flatten.foldl g init = L.foldl (fun r batch => batch.foldl g r) init := by
  induction L generalizing init with
  | nil => rfl
  | cons b bs ih => simp [List.flatten_cons, List.foldl_append, ih]

/-- The batch structure of `getBulkCompatibility` is immaterial to the
final map: the fold over batches equals the fold over the whole
reference list. -/
theorem getBulk_eq_foldl (check : String → Except Unit CompatibilityCheck)
    (componentIds : List String) :
    getBulkCompatibility check componentIds =
      componentIds.foldl
        (fun results componentId => mapSet results componentId (bulkResult check componentId))
        [] := by
  unfold getBulkCompatibility
  rw [← foldl_flatten, chunksOf_flatten]
  have hg : ∀ (results : List (String × CompatibilityCheck)) (componentId : String),
      (match check componentId with
        | Except.ok value => mapSet results componentId value
        | Except.error _ => mapSet results componentId createErrorCompatibility) =
      mapSet results componentId (bulkResult check componentId) := by
    intro results componentId
    unfold bulkResult
    cases check componentId <;> rfl
  have hfun : (fun (results : List (String × CompatibilityCheck)) componentId =>
      match check componentId with
        | Except.ok value => mapSet results componentId value
        | Except.error _ => mapSet results componentId createErrorCompatibility) =
      fun results componentId => mapSet results componentId (bulkResult check componentId) :=
    funext fun results => funext fun componentId => hg results componentId
  rw [hfun]

theorem mapSet_fst_mem (m : List (String × CompatibilityCheck)) (k : String)
    (v : CompatibilityCheck) (a : String) :
    a ∈ (mapSet m k v).map Prod.fst ↔ a ∈ m.map Prod.fst ∨ a = k := by
  induction m with
  | nil => simp [mapSet]
  | cons p ps ih =>
    by_cases h : p.1 = k
    · rw [mapSet, if_pos h]
      simp only [List.map_cons, List.mem_cons]
      rw [h]
      tauto
    · rw [mapSet, if_neg h]
      simp only [List.map_cons, List.mem_cons]
      rw [ih]
      tauto

theorem mapSet_fst_nodup (m : List (String × CompatibilityCheck)) (k : String)
    (v : CompatibilityCheck) (h : (m.map Prod.fst).Nodup) :
    ((mapSet m k v).map Prod.fst).Nodup := by
  induction m with
  | nil => simp [mapSet]
  | cons p ps ih =>
    simp only [List.map_cons, List.nodup_cons] at h
    obtain ⟨hp, hps⟩ := h
    by_cases hk : p.1 = k
    · rw [mapSet, if_pos hk]
      simp only [List.map_cons, List.nodup_cons]
      exact ⟨hk ▸ hp, hps⟩
    · rw [mapSet, if_neg hk]
      simp only [List.map_cons, List.nodup_cons]
      refine ⟨?_, ih hps⟩
      rw [mapSet_fst_mem]
      rintro (hmem | hmem)
      · exact hp hmem
      · exact hk hmem

theorem mapSet_lookup_self (m : List (String × CompatibilityCheck)) (k : String)
    (v : CompatibilityCheck) : (mapSet m k v).lookup k = some v := by
  induction m with
  | nil => simp [mapSet, List.lookup]
  | cons p ps ih =>
    by_cases h : p.1 = k
    · rw [mapSet, if_pos h]
      simp [List.lookup]
    · rw [mapSet, if_neg h]
      rw [List.lookup]
      have : (k == p.1) = false := by
        simp
        exact fun he => h he.symm
      rw [this]
      exact ih

theorem mapSet_lookup_other (m : List (String × CompatibilityCheck)) (k : String)
    (v : CompatibilityCheck) (a : String) (h : a ≠ k) :
    (mapSet m k v).lookup a = m.lookup a := by
  induction m with
  | nil =>
    have hak : (a == k) = false := by simpa using h
    simp [mapSet, List.lookup, hak]
  | cons p ps ih =>
    by_cases hp : p.1 = k
    · rw [mapSet, if_pos hp]
      rw [List.lookup, List.lookup]
      have h1 : (a == k) = false := by simpa using h
      have h2 : (a == p.1) = false := by
        rw [hp]
        simpa using h
      rw [h1, h2]
    · rw [mapSet, if_neg hp]
      rw [List.lookup, List.lookup]
      cases hc : (a == p.1)
      · exact ih
      · rfl

theorem bulk_foldl_spec (f : String → CompatibilityCheck) (ids : List String) :
    ∀ acc : List (String × CompatibilityCheck),
      ((acc.map Prod.fst).Nodup →
        ((ids.foldl (fun r cid => mapSet r cid (f cid)) acc).map Prod.fst).Nodup) ∧
      (∀ a, a ∈ (ids.foldl (fun r cid => mapSet r cid (f cid)) acc).map Prod.fst ↔
        a ∈ acc.map Prod.fst ∨ a ∈ ids) ∧
      (∀ ref ∈ ids,
        (ids.foldl (fun r cid => mapSet r cid (f cid)) acc).lookup ref = some (f ref)) ∧
      (∀ ref, ref ∉ ids →
        (ids.foldl (fun r cid => mapSet r cid (f cid)) acc).lookup ref = acc.lookup ref) := by
  induction ids with
  | nil =>
    intro acc
    refine ⟨fun h => h, by simp, by simp, fun ref _ => rfl⟩
  | cons cid rest ih =>
    intro acc
    simp only [List.foldl_cons]
    obtain ⟨ih1, ih2, ih3, ih4⟩ := ih (mapSet acc cid (f cid))
    refine ⟨?_, ?_, ?_, ?_⟩
    · intro h
      exact ih1 (mapSet_fst_nodup acc cid (f cid) h)
    · intro a
      rw [ih2, mapSet_fst_mem]
      simp only [List.mem_cons]
      tauto
    · intro ref href
      rcases List.mem_cons.mp href with rfl | hr
      · by_cases hrest : ref ∈ rest
        · exact ih3 ref hrest
        · rw [ih4 ref hrest, mapSet_lookup_self]
      · exact ih3 ref hr
    · intro ref href
      simp only [List.mem_cons, not_or] at href
      rw [ih4 ref href.2, mapSet_lookup_other acc cid (f cid) ref href.1]

/-- C9 (counterexample): the synthetic check written for a failed item
carries the message "Compatibility check failed" (capital C), not the
"compatibility check failed" the claim states. -/
theorem bulk_message_counterexample :
    getBulkCompatibility (fun _ => Except.error ()) ["sensor-1"] =
      [("sensor-1", createErrorCompatibility)] ∧
    createErrorCompatibility.issues.map (fun i => i.message) =
      ["Compatibility check failed"] ∧
    "Compatibility check failed" ≠ "compatibility check failed" := by
  refine ⟨?_, rfl, by decide⟩
  rw [getBulk_eq_foldl]
  rfl

/-- C9 (amended): for every boardId-fixed per-item outcome function and
every reference list, getBulkCompatibility returns (without raising — it
is total) a map with one entry per distinct reference; a reference whose
individual check fails maps to the synthetic check with compatible
false, score 0, no suggestions and one error-severity issue with
message "Compatibility check failed", and every other reference maps to
the value of its own successful check. -/
theorem bulk_compatibility_spec (check : String → Except Unit CompatibilityCheck)
    (componentIds : List String) :
    ((getBulkCompatibility check componentIds).map Prod.fst).Nodup ∧
    (∀ ref, ref ∈ (getBulkCompatibility check componentIds).map Prod.fst ↔
      ref ∈ componentIds) ∧
    (∀ ref ∈ componentIds,
      (getBulkCompatibility check componentIds).lookup ref =
        some (match check ref with
          | Except.ok value => value
          | Except.error _ =>
            { compatible := false
              issues := [{ type := IssueKind.error
                           severity := Severity.error
                           message := "Compatibility check failed"
                           solution := some "Please try again or contact support" }]
              suggestions := []
              score := 0 })) := by
  rw [getBulk_eq_foldl]
  obtain ⟨h1, h2, h3, _⟩ := bulk_foldl_spec (bulkResult check) componentIds []
  refine ⟨h1 (by simp), ?_, ?_⟩
  · intro ref
    rw [h2]
    simp
  · intro ref href
    rw [h3 ref href]
    unfold bulkResult createErrorCompatibility
    cases check ref <;> rfl

/-- C10: a failure of the cache backend never raises out of
checkCompatibility — a failing `cache.get` behaves exactly as a miss
(the wrapper of `connection.ts` returns null), after which the resolved
board and component are analyzed, and whatever the backend did with the
final `cache.set` (including failing) the computed check is returned. -/
theorem cache_failure_never_raises (e : String)
    (board? : Option Board) (component? : Option Component)
    (rawSet : Except String Unit) (board : Board) (component : Component) :
    checkCompatibility (Except.error e) board? component? rawSet =
      checkCompatibility (Except.ok none) board? component? rawSet ∧
    checkCompatibility (Except.error e) (some board) (some component) rawSet =
      Except.ok (analyzeCompatibility board component) ∧
    checkCompatibility (Except.ok none) (some board) (some component) (Except.error e) =
      Except.ok (analyzeCompatibility board component) :=
  ⟨rfl, rfl, rfl⟩

end ProtoBuddy
